/-
Verification of the `AndroidDevice` lifecycle controller
(src/android_device_manager/android_device.py).

The controller composes three external collaborators — an AVD manager
(image tool wrapper), an emulator manager (session/process manager) and
an ADB client (control-channel client).  Their code is outside the file
under verification, so each collaborator call is modelled by an outcome
drawn from an `Env` record that theorems quantify over; the store of
existing AVD images is threaded as a `World`.  Every controller method is
translated directly from the Python source: each Lean function returns
the updated world, the updated device handle, the list of collaborator
calls actually performed, and either a value or the raised exception.
-/
import Mathlib

deriving instance DecidableEq for Except

namespace AndroidDeviceManager

/-- States of `AndroidDeviceState` (android_device.py, lines 20-36). -/
inductive AndroidDeviceState
  | NOT_CREATED
  | CREATED
  | RUNNING
  | STOPPED
  | ERROR
deriving DecidableEq, Repr

/-- Kinds of (Python) exception that can flow through the controller.
All of them are subclasses of Python's `Exception`, so a bare
`except Exception` handler catches every one of them.
`avdCreationError` / `avdDeletionError` carry the AVD name, as the
constructors `AVDCreationError(self.name, ...)` / `AVDDeletionError(self.name, ...)`
do in the source.  `otherError` stands for any exception type not named
in the source (e.g. `ValueError`, `OSError`). -/
inductive ExcKind
  | avdCreationError (name : String)
  | avdDeletionError (name : String)
  | emulatorStartError
  | adbError
  | timeoutError
  | androidDeviceError
  | otherError
deriving DecidableEq, Repr

/-- The ADB client object created by `AdbClient(port, sdk)` in `start`. -/
structure AdbClient where
  port : Nat
deriving DecidableEq, Repr

/-- The mutable fields of an `AndroidDevice` handle: `self._avd_config.name`,
`self.state` and `self._adb_client`. -/
structure AndroidDevice where
  name : String
  state : AndroidDeviceState
  adb_client : Option AdbClient
deriving DecidableEq, Repr

/-- A fresh handle, as built by `AndroidDevice.__init__`:
state `NOT_CREATED`, no ADB client. -/
def AndroidDevice.init (name : String) : AndroidDevice :=
  { name := name, state := AndroidDeviceState.NOT_CREATED, adb_client := none }

/-- One collaborator call, recorded in the order the controller makes it. -/
inductive Call
  | avdExist (name : String)
  | avdCreate (name : String) (force : Bool)
  | avdDelete (name : String)
  | startEmulator (name : String)
  | adbWaitForBoot
  | adbKillEmulator
  | emuStopEmulator
  | adbGetProp (key : String)
  | adbGetAllProps
  | adbRoot
  | adbUnroot
  | adbIsRoot
  | adbListPackages
  | adbInstallApk (path : String)
  | adbUninstallPackage (pkg : String) (keepData : Bool)
deriving DecidableEq, Repr

/-- Modelled from the spec: the durable store of AVD images owned by the
external image tool (the AVD manager's own module is not part of the
verified file).  Per the spec, the Image Manager checks existence of,
creates, and deletes named images; a successful `create` makes the name
exist and a successful `delete` removes it. -/
structure World where
  avds : List String
deriving DecidableEq, Repr

/-- Outcomes of the collaborator calls a single controller-method
invocation may make.  `Option ExcKind` fields are `some k` when that call
raises `k` and `none` when it succeeds; `Except` fields either raise or
return the given value.  Theorems quantify over this record, so every
combination of collaborator success and failure is covered. -/
structure Env where
  existErr : Option ExcKind
  avdCreateErr : Option ExcKind
  avdDeleteErr : Option ExcKind
  startEmulatorOutcome : Except ExcKind Nat
  waitForBootErr : Option ExcKind
  killEmulatorErr : Option ExcKind
  stopEmulatorErr : Option ExcKind
  getPropOutcome : Except ExcKind String
  getAllPropsOutcome : Except ExcKind (List (String × String))
  rootOutcome : Except ExcKind Bool
  unrootOutcome : Except ExcKind Bool
  isRootOutcome : Except ExcKind Bool
  listPackagesOutcome : Except ExcKind (List String)
  installApkErr : Option ExcKind
  uninstallErr : Option ExcKind
deriving Repr

/-- An environment in which every collaborator call succeeds. -/
def Env.allOk (e : Env) : Prop :=
  e.existErr = none ∧ e.avdCreateErr = none ∧ e.avdDeleteErr = none ∧
  (∃ p, e.startEmulatorOutcome = Except.ok p) ∧ e.waitForBootErr = none ∧
  e.killEmulatorErr = none ∧ e.stopEmulatorErr = none ∧
  (∃ v, e.getPropOutcome = Except.ok v) ∧
  (∃ v, e.getAllPropsOutcome = Except.ok v) ∧
  (∃ v, e.rootOutcome = Except.ok v) ∧
  (∃ v, e.unrootOutcome = Except.ok v) ∧
  (∃ v, e.isRootOutcome = Except.ok v) ∧
  (∃ v, e.listPackagesOutcome = Except.ok v) ∧
  e.installApkErr = none ∧ e.uninstallErr = none

instance : DecidablePred Env.allOk := by
  intro e
  unfold Env.allOk
  have hx : ∀ (α : Type) (_ : DecidableEq α) (x : Except ExcKind α),
      Decidable (∃ v, x = Except.ok v) := by
    intro α _ x
    cases x with
    | ok v => exact isTrue ⟨v, rfl⟩
    | error k => exact isFalse (by rintro ⟨v, hv⟩; cases hv)
  have h1 := hx Nat inferInstance e.startEmulatorOutcome
  have h2 := hx String inferInstance e.getPropOutcome
  have h3 := hx (List (String × String)) inferInstance e.getAllPropsOutcome
  have h4 := hx Bool inferInstance e.rootOutcome
  have h5 := hx Bool inferInstance e.unrootOutcome
  have h6 := hx Bool inferInstance e.isRootOutcome
  have h7 := hx (List String) inferInstance e.listPackagesOutcome
  exact instDecidableAnd

/-- Result of running one controller method: updated image store, updated
handle, the collaborator calls made (in order), and the returned value or
raised exception. -/
structure Outcome (α : Type) where
  world : World
  device : AndroidDevice
  calls : List Call
  result : Except ExcKind α
deriving Repr

/-- `AndroidDevice.create` (lines 65-90).  Source:
`if not exist(name): avd_manager.create(config, force); state = CREATED
else: state = CREATED`, with `except AVDCreationError: state = ERROR; raise e`
and `except Exception: state = ERROR; raise AVDCreationError(self.name, ...)`. -/
def create (env : Env) (w : World) (d : AndroidDevice) (force : Bool) : Outcome Unit :=
  match env.existErr with
  | some k =>
      -- `exist` raised: caught, state set to ERROR, rethrown as-is when it
      -- already is an AVDCreationError, wrapped otherwise.
      { world := w
        device := { d with state := AndroidDeviceState.ERROR }
        calls := [Call.avdExist d.name]
        result := Except.error (match k with
          | ExcKind.avdCreationError n => ExcKind.avdCreationError n
          | _ => ExcKind.avdCreationError d.name) }
  | none =>
      if d.name ∈ w.avds then
        { world := w
          device := { d with state := AndroidDeviceState.CREATED }
          calls := [Call.avdExist d.name]
          result := Except.ok () }
      else
        match env.avdCreateErr with
        | none =>
            { world := { avds := d.name :: w.avds }
              device := { d with state := AndroidDeviceState.CREATED }
              calls := [Call.avdExist d.name, Call.avdCreate d.name force]
              result := Except.ok () }
        | some k =>
            { world := w
              device := { d with state := AndroidDeviceState.ERROR }
              calls := [Call.avdExist d.name, Call.avdCreate d.name force]
              result := Except.error (match k with
                | ExcKind.avdCreationError n => ExcKind.avdCreationError n
                | _ => ExcKind.avdCreationError d.name) }

/-- `AndroidDevice.delete` (lines 92-107).  Source:
`avd_manager.delete(name); state = NOT_CREATED`, with
`except Exception: state = ERROR; raise AVDDeletionError(self.name, ...)`. -/
def delete (env : Env) (w : World) (d : AndroidDevice) : Outcome Unit :=
  match env.avdDeleteErr with
  | none =>
      { world := { avds := w.avds.erase d.name }
        device := { d with state := AndroidDeviceState.NOT_CREATED }
        calls := [Call.avdDelete d.name]
        result := Except.ok () }
  | some _ =>
      { world := w
        device := { d with state := AndroidDeviceState.ERROR }
        calls := [Call.avdDelete d.name]
        result := Except.error (ExcKind.avdDeletionError d.name) }

/-- The exception types named in `start`'s handler
`except (EmulatorStartError, ADBError, TimeoutError)` (line 128). -/
def startHandlerCatches : ExcKind → Bool
  | ExcKind.emulatorStartError => true
  | ExcKind.adbError => true
  | ExcKind.timeoutError => true
  | _ => false

/-- `AndroidDevice.start` (lines 109-131).  Source:
`port = start_emulator(...); self._adb_client = AdbClient(port, sdk);
self._adb_client.wait_for_boot(); state = RUNNING`, with
`except (EmulatorStartError, ADBError, TimeoutError): state = ERROR; raise`.
An exception of any other type propagates uncaught: the state is left
unchanged, and an ADB client assigned before the failure stays assigned. -/
def start (env : Env) (w : World) (d : AndroidDevice) : Outcome Unit :=
  match env.startEmulatorOutcome with
  | Except.error k =>
      if startHandlerCatches k then
        { world := w
          device := { d with state := AndroidDeviceState.ERROR }
          calls := [Call.startEmulator d.name]
          result := Except.error k }
      else
        { world := w, device := d
          calls := [Call.startEmulator d.name]
          result := Except.error k }
  | Except.ok port =>
      let d1 := { d with adb_client := some { port := port } }
      match env.waitForBootErr with
      | none =>
          { world := w
            device := { d1 with state := AndroidDeviceState.RUNNING }
            calls := [Call.startEmulator d.name, Call.adbWaitForBoot]
            result := Except.ok () }
      | some k =>
          if startHandlerCatches k then
            { world := w
              device := { d1 with state := AndroidDeviceState.ERROR }
              calls := [Call.startEmulator d.name, Call.adbWaitForBoot]
              result := Except.error k }
          else
            { world := w, device := d1
              calls := [Call.startEmulator d.name, Call.adbWaitForBoot]
              result := Except.error k }

/-- `AndroidDevice.stop` (lines 133-151).  Source:
`if self._adb_client: self._adb_client.kill_emulator(); self._adb_client = None
self._emulator_manager.stop_emulator(); state = STOPPED`, with
`except Exception: state = ERROR; raise`.  Note that when `kill_emulator`
raises, control jumps straight to the handler: `stop_emulator` is not
called and `self._adb_client` is not cleared. -/
def stop (env : Env) (w : World) (d : AndroidDevice) : Outcome Unit :=
  match d.adb_client with
  | some _ =>
      match env.killEmulatorErr with
      | some k =>
          { world := w
            device := { d with state := AndroidDeviceState.ERROR }
            calls := [Call.adbKillEmulator]
            result := Except.error k }
      | none =>
          let d1 := { d with adb_client := none }
          match env.stopEmulatorErr with
          | some k =>
              { world := w
                device := { d1 with state := AndroidDeviceState.ERROR }
                calls := [Call.adbKillEmulator, Call.emuStopEmulator]
                result := Except.error k }
          | none =>
              { world := w
                device := { d1 with state := AndroidDeviceState.STOPPED }
                calls := [Call.adbKillEmulator, Call.emuStopEmulator]
                result := Except.ok () }
  | none =>
      match env.stopEmulatorErr with
      | some k =>
          { world := w
            device := { d with state := AndroidDeviceState.ERROR }
            calls := [Call.emuStopEmulator]
            result := Except.error k }
      | none =>
          { world := w
            device := { d with state := AndroidDeviceState.STOPPED }
            calls := [Call.emuStopEmulator]
            result := Except.ok () }

/-- `AndroidDevice._ensure_running` (lines 297-307) raises exactly when
`self.state != AndroidDeviceState.RUNNING or not self._adb_client`. -/
def ensureRunningFails (d : AndroidDevice) : Bool :=
  d.state ≠ AndroidDeviceState.RUNNING || d.adb_client.isNone

/-- Shared shape of the simple delegating control operations
(`get_prop`, `get_all_props`, `root`, `unroot`, `is_root`,
`list_installed_packages`, `install_apk`): guard via `_ensure_running`,
then a single delegated client call. -/
def delegated (d : AndroidDevice) (w : World) (c : Call) (r : Except ExcKind α) :
    Outcome α :=
  if ensureRunningFails d then
    { world := w, device := d, calls := []
      result := Except.error ExcKind.androidDeviceError }
  else
    { world := w, device := d, calls := [c], result := r }

/-- `AndroidDevice.get_prop` (lines 153-172). -/
def get_prop (env : Env) (w : World) (d : AndroidDevice) (key : String) :
    Outcome String :=
  delegated d w (Call.adbGetProp key) env.getPropOutcome

/-- `AndroidDevice.get_all_props` (lines 174-189). -/
def get_all_props (env : Env) (w : World) (d : AndroidDevice) :
    Outcome (List (String × String)) :=
  delegated d w Call.adbGetAllProps env.getAllPropsOutcome

/-- `AndroidDevice.root` (lines 191-203). -/
def root (env : Env) (w : World) (d : AndroidDevice) : Outcome Bool :=
  delegated d w Call.adbRoot env.rootOutcome

/-- `AndroidDevice.unroot` (lines 205-217). -/
def unroot (env : Env) (w : World) (d : AndroidDevice) : Outcome Bool :=
  delegated d w Call.adbUnroot env.unrootOutcome

/-- `AndroidDevice.is_root` (lines 219-231). -/
def is_root (env : Env) (w : World) (d : AndroidDevice) : Outcome Bool :=
  delegated d w Call.adbIsRoot env.isRootOutcome

/-- `AndroidDevice.list_installed_packages` (lines 233-245). -/
def list_installed_packages (env : Env) (w : World) (d : AndroidDevice) :
    Outcome (List String) :=
  delegated d w Call.adbListPackages env.listPackagesOutcome

/-- `AndroidDevice.is_package_installed` (lines 247-262).  Source:
`self._ensure_running(); return package_name in self._adb_client.list_installed_packages()`. -/
def is_package_installed (env : Env) (w : World) (d : AndroidDevice)
    (package_name : String) : Outcome Bool :=
  if ensureRunningFails d then
    { world := w, device := d, calls := []
      result := Except.error ExcKind.androidDeviceError }
  else
    match env.listPackagesOutcome with
    | Except.ok ps =>
        { world := w, device := d, calls := [Call.adbListPackages]
          result := Except.ok (package_name ∈ ps : Bool) }
    | Except.error k =>
        { world := w, device := d, calls := [Call.adbListPackages]
          result := Except.error k }

/-- `AndroidDevice.install_apk` (lines 264-277). -/
def install_apk (env : Env) (w : World) (d : AndroidDevice) (apk_path : String) :
    Outcome Unit :=
  delegated d w (Call.adbInstallApk apk_path)
    (match env.installApkErr with
     | none => Except.ok ()
     | some k => Except.error k)

/-- `AndroidDevice.uninstall_package` (lines 279-295).  Source:
`self._ensure_running();
if not self.is_package_installed(package_name): raise AndroidDeviceError(...)
self._adb_client.uninstall_package(package_name, keep_data=keep_data)`.
(`is_package_installed` redundantly re-runs `_ensure_running`; with the
outer guard already passed it cannot fail.) -/
def uninstall_package (env : Env) (w : World) (d : AndroidDevice)
    (package_name : String) (keep_data : Bool) : Outcome Unit :=
  if ensureRunningFails d then
    { world := w, device := d, calls := []
      result := Except.error ExcKind.androidDeviceError }
  else
    match env.listPackagesOutcome with
    | Except.error k =>
        { world := w, device := d, calls := [Call.adbListPackages]
          result := Except.error k }
    | Except.ok ps =>
        if package_name ∈ ps then
          match env.uninstallErr with
          | none =>
              { world := w, device := d
                calls := [Call.adbListPackages,
                          Call.adbUninstallPackage package_name keep_data]
                result := Except.ok () }
          | some k =>
              { world := w, device := d
                calls := [Call.adbListPackages,
                          Call.adbUninstallPackage package_name keep_data]
                result := Except.error k }
        else
          { world := w, device := d, calls := [Call.adbListPackages]
            result := Except.error ExcKind.androidDeviceError }

/-- `AndroidDevice.__exit__` (lines 318-329).  Source: `try: self.stop()
except Exception: log` then `try: self.delete() except Exception: log` —
each teardown step runs inside its own handler, so both are attempted and
neither exception propagates (`__exit__` returns `None`, encoded as
`Except.ok ()`).  `envS` / `envD` give the collaborator outcomes seen by
the `stop` step and the `delete` step respectively. -/
def scopeExit (envS envD : Env) (w : World) (d : AndroidDevice) : Outcome Unit :=
  let o1 := stop envS w d
  let o2 := delete envD o1.world o1.device
  { world := o2.world, device := o2.device
    calls := o1.calls ++ o2.calls
    result := Except.ok () }

/-! ### Concrete fixtures used by witnesses and counterexamples -/

/-- An environment where every collaborator call succeeds. -/
def envOk : Env :=
  { existErr := none, avdCreateErr := none, avdDeleteErr := none
    startEmulatorOutcome := Except.ok 5554, waitForBootErr := none
    killEmulatorErr := none, stopEmulatorErr := none
    getPropOutcome := Except.ok "1", getAllPropsOutcome := Except.ok []
    rootOutcome := Except.ok true, unrootOutcome := Except.ok true
    isRootOutcome := Except.ok false
    listPackagesOutcome := Except.ok ["com.example.app"]
    installApkErr := none, uninstallErr := none }

theorem envOk_allOk : envOk.allOk :=
  ⟨rfl, rfl, rfl, ⟨5554, rfl⟩, rfl, rfl, rfl, ⟨"1", rfl⟩, ⟨[], rfl⟩,
   ⟨true, rfl⟩, ⟨true, rfl⟩, ⟨false, rfl⟩, ⟨["com.example.app"], rfl⟩, rfl, rfl⟩

/-- A store in which the image `avd1` exists. -/
def w0 : World := { avds := ["avd1"] }

/-- A handle in the RUNNING state with an ADB client attached. -/
def dRun : AndroidDevice :=
  { name := "avd1", state := AndroidDeviceState.RUNNING
    adb_client := some { port := 5554 } }

/-- A handle in the CREATED state with no ADB client. -/
def dCre : AndroidDevice :=
  { name := "avd1", state := AndroidDeviceState.CREATED, adb_client := none }

/-! ### C1: stop after a channel-kill failure -/

/-- C1, counterexample.  The claim says that when a channel client is
present and `kill_emulator` raises, `stop` still invokes `stop_emulator`.
On the code this is false: with a client attached and `kill_emulator`
raising `ADBError`, the exception jumps straight to the handler and
`stop_emulator` is never called. -/
theorem stop_kill_failure_counterexample :
    dRun.adb_client.isSome = true ∧
    ({ envOk with killEmulatorErr := some ExcKind.adbError } : Env).killEmulatorErr
      = some ExcKind.adbError ∧
    Call.emuStopEmulator ∉
      (stop { envOk with killEmulatorErr := some ExcKind.adbError } w0 dRun).calls := by
  refine ⟨rfl, rfl, ?_⟩
  decide

/-- C1, amended: when a channel client is present and `kill_emulator`
raises, `stop` does NOT invoke `stop_emulator`; it transitions the state
to ERROR and rethrows the channel-kill exception.  Moreover the final
state is STOPPED exactly when `stop` returns without raising. -/
theorem stop_kill_failure_amended (env : Env) (w : World) (d : AndroidDevice)
    (k : ExcKind) (hc : d.adb_client.isSome = true)
    (hk : env.killEmulatorErr = some k) :
    (stop env w d).calls = [Call.adbKillEmulator] ∧
    (stop env w d).device.state = AndroidDeviceState.ERROR ∧
    (stop env w d).result = Except.error k ∧
    ∀ (env2 : Env) (w2 : World) (d2 : AndroidDevice),
      ((stop env2 w2 d2).device.state = AndroidDeviceState.STOPPED ↔
        (stop env2 w2 d2).result = Except.ok ()) := by
  refine ?_
  cases hcl : d.adb_client with
  | none => rw [hcl] at hc; simp at hc
  | some c =>
      refine ⟨?_, ?_, ?_, ?_⟩
      · simp [stop, hcl, hk]
      · simp [stop, hcl, hk]
      · simp [stop, hcl, hk]
      · intro env2 w2 d2
        cases h2 : d2.adb_client <;>
          cases hk2 : env2.killEmulatorErr <;>
            cases hs2 : env2.stopEmulatorErr <;>
              simp [stop, h2, hk2, hs2]

/-- C1 amended, witness at a concrete input. -/
theorem stop_kill_failure_amended_witness :
    (stop { envOk with killEmulatorErr := some ExcKind.adbError } w0 dRun).calls
      = [Call.adbKillEmulator] ∧
    (stop { envOk with killEmulatorErr := some ExcKind.adbError } w0 dRun).device.state
      = AndroidDeviceState.ERROR ∧
    (stop { envOk with killEmulatorErr := some ExcKind.adbError } w0 dRun).result
      = Except.error ExcKind.adbError := by
  have h := stop_kill_failure_amended
    { envOk with killEmulatorErr := some ExcKind.adbError } w0 dRun
    ExcKind.adbError rfl rfl
  exact ⟨h.1, h.2.1, h.2.2.1⟩

/-! ### C2: control operations outside RUNNING -/

/-- Shape of a control operation rejected by `_ensure_running`: it raises
`AndroidDeviceError`, performs no collaborator call, and leaves the
handle and the store untouched. -/
def rejected (o : Outcome α) (w : World) (d : AndroidDevice) : Prop :=
  o.result = Except.error ExcKind.androidDeviceError ∧ o.calls = [] ∧
  o.device = d ∧ o.world = w

theorem ensureRunningFails_of_not_ready (d : AndroidDevice)
    (h : d.state ≠ AndroidDeviceState.RUNNING ∨ d.adb_client = none) :
    ensureRunningFails d = true := by
  rcases h with h | h
  · simp [ensureRunningFails, h]
  · simp [ensureRunningFails, h]

/-- C2: every control operation invoked while the state is not RUNNING or
no channel client is present raises `AndroidDeviceError`, performs no
call on the ADB client, and leaves the handle (and store) unchanged. -/
theorem control_ops_device_not_ready (env : Env) (w : World) (d : AndroidDevice)
    (key apk pkg : String) (kd : Bool)
    (h : d.state ≠ AndroidDeviceState.RUNNING ∨ d.adb_client = none) :
    rejected (get_prop env w d key) w d ∧
    rejected (get_all_props env w d) w d ∧
    rejected (root env w d) w d ∧
    rejected (unroot env w d) w d ∧
    rejected (is_root env w d) w d ∧
    rejected (list_installed_packages env w d) w d ∧
    rejected (is_package_installed env w d pkg) w d ∧
    rejected (install_apk env w d apk) w d ∧
    rejected (uninstall_package env w d pkg kd) w d := by
  have hf := ensureRunningFails_of_not_ready d h
  refine ⟨?_, ?_, ?_, ?_, ?_, ?_, ?_, ?_, ?_⟩ <;>
    simp [rejected, get_prop, get_all_props, root, unroot, is_root,
      list_installed_packages, is_package_installed, install_apk,
      uninstall_package, delegated, hf]

/-- C2, witness at a concrete input: a CREATED handle with no client. -/
theorem control_ops_device_not_ready_witness :
    rejected (get_prop envOk w0 dCre "ro.build.version") w0 dCre ∧
    rejected (uninstall_package envOk w0 dCre "com.example.app" false) w0 dCre := by
  have h := control_ops_device_not_ready envOk w0 dCre
    "ro.build.version" "app.apk" "com.example.app" false (Or.inr rfl)
  exact ⟨h.1, h.2.2.2.2.2.2.2.2⟩

/-! ### C3: ERROR-before-rethrow on lifecycle failures -/

/-- C3, counterexample.  The claim says every exception a lifecycle
operation lets propagate leaves the state ERROR.  But `start` catches only
`(EmulatorStartError, ADBError, TimeoutError)`: when `start_emulator`
raises an exception of any other type (e.g. `ValueError`), it propagates
out of `start` while the state remains CREATED. -/
theorem lifecycle_error_sticky_counterexample :
    (start { envOk with startEmulatorOutcome := Except.error ExcKind.otherError }
        w0 dCre).result = Except.error ExcKind.otherError ∧
    (start { envOk with startEmulatorOutcome := Except.error ExcKind.otherError }
        w0 dCre).device.state ≠ AndroidDeviceState.ERROR := by
  decide

/-- C3, amended: `create`, `delete` and `stop` transition the state to
ERROR before every exception they let propagate (their handlers catch
`Exception`); `start` does so exactly for the exception types its handler
names — `EmulatorStartError`, `ADBError`, `TimeoutError` — while an
exception of any other type propagates out of `start` with the state left
unchanged. -/
theorem lifecycle_error_sticky_amended (env : Env) (w : World)
    (d : AndroidDevice) (force : Bool) :
    (∀ k, (create env w d force).result = Except.error k →
        (create env w d force).device.state = AndroidDeviceState.ERROR) ∧
    (∀ k, (delete env w d).result = Except.error k →
        (delete env w d).device.state = AndroidDeviceState.ERROR) ∧
    (∀ k, (stop env w d).result = Except.error k →
        (stop env w d).device.state = AndroidDeviceState.ERROR) ∧
    (∀ k, (start env w d).result = Except.error k →
        startHandlerCatches k = true →
        (start env w d).device.state = AndroidDeviceState.ERROR) ∧
    (∀ k, (start env w d).result = Except.error k →
        startHandlerCatches k = false →
        (start env w d).device.state = d.state) := by
  refine ⟨?_, ?_, ?_, ?_, ?_⟩
  · intro k hk
    cases he : env.existErr with
    | some k0 => simp [create, he]
    | none =>
        by_cases hm : d.name ∈ w.avds
        · simp [create, he, hm] at hk
        · cases hc : env.avdCreateErr with
          | none => simp [create, he, hm, hc] at hk
          | some k0 => simp [create, he, hm, hc]
  · intro k hk
    cases hd : env.avdDeleteErr with
    | none => simp [delete, hd] at hk
    | some k0 => simp [delete, hd]
  · intro k hk
    cases hcl : d.adb_client with
    | some c =>
        cases hk0 : env.killEmulatorErr with
        | some k0 => simp [stop, hcl, hk0]
        | none =>
            cases hs0 : env.stopEmulatorErr with
            | some k0 => simp [stop, hcl, hk0, hs0]
            | none => simp [stop, hcl, hk0, hs0] at hk
    | none =>
        cases hs0 : env.stopEmulatorErr with
        | some k0 => simp [stop, hcl, hs0]
        | none => simp [stop, hcl, hs0] at hk
  · intro k hk hcat
    cases hs : env.startEmulatorOutcome with
    | error k0 =>
        cases hc0 : startHandlerCatches k0 with
        | true => simp [start, hs, hc0]
        | false =>
            simp [start, hs, hc0] at hk
            rw [hk] at hc0
            rw [hc0] at hcat
            cases hcat
    | ok p =>
        cases hb : env.waitForBootErr with
        | none => simp [start, hs, hb] at hk
        | some k0 =>
            cases hc0 : startHandlerCatches k0 with
            | true => simp [start, hs, hb, hc0]
            | false =>
                simp [start, hs, hb, hc0] at hk
                rw [hk] at hc0
                rw [hc0] at hcat
                cases hcat
  · intro k hk hcat
    cases hs : env.startEmulatorOutcome with
    | error k0 =>
        cases hc0 : startHandlerCatches k0 with
        | true =>
            simp [start, hs, hc0] at hk
            rw [hk] at hc0
            rw [hc0] at hcat
            cases hcat
        | false => simp [start, hs, hc0]
    | ok p =>
        cases hb : env.waitForBootErr with
        | none => simp [start, hs, hb] at hk
        | some k0 =>
            cases hc0 : startHandlerCatches k0 with
            | true =>
                simp [start, hs, hb, hc0] at hk
                rw [hk] at hc0
                rw [hc0] at hcat
                cases hcat
            | false => simp [start, hs, hb, hc0]

/-- C3 amended, witness at a concrete input: `delete` failing. -/
theorem lifecycle_error_sticky_amended_witness :
    (delete { envOk with avdDeleteErr := some ExcKind.otherError } w0 dCre).result
      = Except.error (ExcKind.avdDeletionError "avd1") ∧
    (delete { envOk with avdDeleteErr := some ExcKind.otherError } w0 dCre).device.state
      = AndroidDeviceState.ERROR := by
  have h := (lifecycle_error_sticky_amended
    { envOk with avdDeleteErr := some ExcKind.otherError } w0 dCre false).2.1
    (ExcKind.avdDeletionError "avd1") (by decide)
  exact ⟨by decide, h⟩

/-! ### C4: RUNNING only after a successful boot wait -/

/-- C4: entered from a non-RUNNING state, `start` ends in RUNNING only
when it returns successfully with `wait_for_boot` having been invoked and
having succeeded; and whenever the emulator spawn succeeds but
`wait_for_boot` raises one of the handled types — in particular the
boot-wait `TimeoutError` — `start` leaves the state ERROR and rethrows
that original exception unwrapped. -/
theorem start_requires_boot (env : Env) (w : World) (d : AndroidDevice)
    (hns : d.state ≠ AndroidDeviceState.RUNNING) :
    ((start env w d).device.state = AndroidDeviceState.RUNNING →
       (start env w d).result = Except.ok () ∧ env.waitForBootErr = none ∧
       Call.adbWaitForBoot ∈ (start env w d).calls) ∧
    (∀ p k, env.startEmulatorOutcome = Except.ok p →
       env.waitForBootErr = some k → startHandlerCatches k = true →
       (start env w d).device.state = AndroidDeviceState.ERROR ∧
       (start env w d).result = Except.error k) := by
  constructor
  · intro hr
    cases hs : env.startEmulatorOutcome with
    | error k0 =>
        cases hc0 : startHandlerCatches k0 with
        | true => rw [start] at hr; simp [hs, hc0] at hr
        | false =>
            rw [start] at hr
            simp [hs, hc0] at hr
            exact absurd hr hns
    | ok p =>
        cases hb : env.waitForBootErr with
        | none => simp [start, hs, hb]
        | some k0 =>
            cases hc0 : startHandlerCatches k0 with
            | true => rw [start] at hr; simp [hs, hb, hc0] at hr
            | false =>
                rw [start] at hr
                simp [hs, hb, hc0] at hr
                exact absurd hr hns
  · intro p k hs hb hcat
    simp [start, hs, hb, hcat]

/-- C4, witness: boot-wait timeout from a CREATED handle. -/
theorem start_requires_boot_witness :
    (start { envOk with waitForBootErr := some ExcKind.timeoutError } w0 dCre).device.state
      = AndroidDeviceState.ERROR ∧
    (start { envOk with waitForBootErr := some ExcKind.timeoutError } w0 dCre).result
      = Except.error ExcKind.timeoutError := by
  exact (start_requires_boot
    { envOk with waitForBootErr := some ExcKind.timeoutError } w0 dCre
    (by decide)).2 5554 ExcKind.timeoutError rfl rfl (by decide)

/-! ### C5: create skips the image tool when the image exists -/

/-- C5: whenever `exist` answers (does not raise) and the image is already
present, `create` makes no `avdCreate` call and sets the state to CREATED;
consequently after a first successful `create`, a second `create` (whose
`exist` call answers) is a no-op: it leaves the handle and the store
unchanged, ends in state CREATED, returns without raising, and never
invokes the image tool's create. -/
theorem create_create_idempotent (env1 env2 : Env) (w : World)
    (d : AndroidDevice) (f1 f2 : Bool)
    (h1 : env1.existErr = none) (h2 : env2.existErr = none) :
    (d.name ∈ w.avds →
       (create env1 w d f1).calls = [Call.avdExist d.name] ∧
       (create env1 w d f1).device.state = AndroidDeviceState.CREATED ∧
       (create env1 w d f1).result = Except.ok ()) ∧
    ((create env1 w d f1).result = Except.ok () →
       (create env2 (create env1 w d f1).world (create env1 w d f1).device f2).calls
         = [Call.avdExist d.name] ∧
       (∀ n fo, Call.avdCreate n fo ∉
         (create env2 (create env1 w d f1).world (create env1 w d f1).device f2).calls) ∧
       (create env2 (create env1 w d f1).world (create env1 w d f1).device f2).device
         = (create env1 w d f1).device ∧
       (create env2 (create env1 w d f1).world (create env1 w d f1).device f2).world
         = (create env1 w d f1).world ∧
       (create env2 (create env1 w d f1).world (create env1 w d f1).device f2).device.state
         = AndroidDeviceState.CREATED ∧
       (create env2 (create env1 w d f1).world (create env1 w d f1).device f2).result
         = Except.ok ()) := by
  constructor
  · intro hm
    refine ⟨?_, ?_, ?_⟩ <;> simp [create, h1, hm]
  · intro hok
    by_cases hm : d.name ∈ w.avds
    · have hw : (create env1 w d f1).world = w := by simp [create, h1, hm]
      have hd : (create env1 w d f1).device
          = { d with state := AndroidDeviceState.CREATED } := by
        simp [create, h1, hm]
      rw [hw, hd]
      refine ⟨?_, ?_, ?_, ?_, ?_, ?_⟩ <;> simp [create, h2, hm]
    · cases hc : env1.avdCreateErr with
      | some k0 => simp [create, h1, hm, hc] at hok
      | none =>
          have hw : (create env1 w d f1).world = { avds := d.name :: w.avds } := by
            simp [create, h1, hm, hc]
          have hd : (create env1 w d f1).device
              = { d with state := AndroidDeviceState.CREATED } := by
            simp [create, h1, hm, hc]
          rw [hw, hd]
          have hm2 : d.name ∈ ({ avds := d.name :: w.avds } : World).avds :=
            List.mem_cons_self d.name w.avds
          refine ⟨?_, ?_, ?_, ?_, ?_, ?_⟩ <;> simp [create, h2, hm2]

/-- C5, witness: `create` twice on a fresh handle with an absent image. -/
theorem create_create_idempotent_witness :
    (create envOk { avds := [] } (AndroidDevice.init "avd1") false).result
      = Except.ok () ∧
    (create envOk
      (create envOk { avds := [] } (AndroidDevice.init "avd1") false).world
      (create envOk { avds := [] } (AndroidDevice.init "avd1") false).device
      false).device.state = AndroidDeviceState.CREATED ∧
    (∀ n fo, Call.avdCreate n fo ∉
      (create envOk
        (create envOk { avds := [] } (AndroidDevice.init "avd1") false).world
        (create envOk { avds := [] } (AndroidDevice.init "avd1") false).device
        false).calls) := by
  have hfst : (create envOk { avds := [] } (AndroidDevice.init "avd1") false).result
      = Except.ok () := by decide
  have h := (create_create_idempotent envOk envOk { avds := [] }
    (AndroidDevice.init "avd1") false false rfl rfl).2 hfst
  exact ⟨hfst, h.2.2.2.2.1, h.2.1⟩

/-! ### C6: channel client presence versus RUNNING state -/

/-- C6, counterexample.  The claim says that after every public operation
a client exists iff the state is RUNNING.  But when `wait_for_boot`
raises (here: `TimeoutError`), `start` has already assigned
`self._adb_client` and the handler leaves it assigned while setting the
state to ERROR — a client exists in a non-RUNNING resting state. -/
theorem client_iff_running_counterexample :
    (start { envOk with waitForBootErr := some ExcKind.timeoutError }
        w0 dCre).device.state ≠ AndroidDeviceState.RUNNING ∧
    (start { envOk with waitForBootErr := some ExcKind.timeoutError }
        w0 dCre).device.adb_client.isSome = true := by
  decide

/-- The one direction of the claimed invariant that the code maintains:
a RUNNING handle has an ADB client. -/
def clientInv (d : AndroidDevice) : Prop :=
  d.state = AndroidDeviceState.RUNNING → d.adb_client.isSome = true

/-- C6, amended: every public operation preserves the invariant
"state = RUNNING implies a Control-Channel Client is present"; the
converse direction is false (see the counterexample: a client can remain
attached with state ERROR after a failed boot wait). -/
theorem client_of_running_invariant (env env2 : Env) (w : World)
    (d : AndroidDevice) (force : Bool) (key apk pkg : String) (kd : Bool)
    (h : clientInv d) :
    clientInv (create env w d force).device ∧
    clientInv (delete env w d).device ∧
    clientInv (start env w d).device ∧
    clientInv (stop env w d).device ∧
    clientInv (get_prop env w d key).device ∧
    clientInv (get_all_props env w d).device ∧
    clientInv (root env w d).device ∧
    clientInv (unroot env w d).device ∧
    clientInv (is_root env w d).device ∧
    clientInv (list_installed_packages env w d).device ∧
    clientInv (is_package_installed env w d pkg).device ∧
    clientInv (install_apk env w d apk).device ∧
    clientInv (uninstall_package env w d pkg kd).device ∧
    clientInv (scopeExit env env2 w d).device := by
  have hcreate : ∀ (e : Env) (w1 : World) (d1 : AndroidDevice) (f : Bool),
      clientInv (create e w1 d1 f).device := by
    intro e w1 d1 f
    cases he : e.existErr with
    | some k0 => intro hr; simp [create, he] at hr
    | none =>
        by_cases hm : d1.name ∈ w1.avds
        · intro hr; simp [create, he, hm] at hr
        · cases hc : e.avdCreateErr with
          | none => intro hr; simp [create, he, hm, hc] at hr
          | some k0 => intro hr; simp [create, he, hm, hc] at hr
  have hdelete : ∀ (e : Env) (w1 : World) (d1 : AndroidDevice),
      clientInv (delete e w1 d1).device := by
    intro e w1 d1
    cases hd : e.avdDeleteErr with
    | none => intro hr; simp [delete, hd] at hr
    | some k0 => intro hr; simp [delete, hd] at hr
  have hstop : ∀ (e : Env) (w1 : World) (d1 : AndroidDevice),
      clientInv (stop e w1 d1).device := by
    intro e w1 d1
    cases hcl : d1.adb_client with
    | some c =>
        cases hk0 : e.killEmulatorErr with
        | some k0 => intro hr; simp [stop, hcl, hk0] at hr
        | none =>
            cases hs0 : e.stopEmulatorErr with
            | some k0 => intro hr; simp [stop, hcl, hk0, hs0] at hr
            | none => intro hr; simp [stop, hcl, hk0, hs0] at hr
    | none =>
        cases hs0 : e.stopEmulatorErr with
        | some k0 => intro hr; simp [stop, hcl, hs0] at hr
        | none => intro hr; simp [stop, hcl, hs0] at hr
  have hstart : clientInv (start env w d).device := by
    cases hs : env.startEmulatorOutcome with
    | error k0 =>
        cases hc0 : startHandlerCatches k0 with
        | true => intro hr; simp [start, hs, hc0] at hr
        | false => simp [start, hs, hc0]; exact h
    | ok p =>
        cases hb : env.waitForBootErr with
        | none => intro hr; simp [start, hs, hb]
        | some k0 =>
            cases hc0 : startHandlerCatches k0 with
            | true => intro hr; simp [start, hs, hb, hc0] at hr
            | false => intro hr; simp [start, hs, hb, hc0]
  have hguard : ∀ {α : Type} (o : Outcome α), o.device = d → clientInv o.device := by
    intro α o ho
    rw [ho]; exact h
  refine ⟨hcreate env w d force, hdelete env w d, hstart, hstop env w d,
    ?_, ?_, ?_, ?_, ?_, ?_, ?_, ?_, ?_, hdelete env2 (stop env w d).world (stop env w d).device⟩
  · exact hguard _ (by by_cases hg : ensureRunningFails d <;> simp [get_prop, delegated, hg])
  · exact hguard _ (by by_cases hg : ensureRunningFails d <;> simp [get_all_props, delegated, hg])
  · exact hguard _ (by by_cases hg : ensureRunningFails d <;> simp [root, delegated, hg])
  · exact hguard _ (by by_cases hg : ensureRunningFails d <;> simp [unroot, delegated, hg])
  · exact hguard _ (by by_cases hg : ensureRunningFails d <;> simp [is_root, delegated, hg])
  · exact hguard _ (by by_cases hg : ensureRunningFails d <;>
      simp [list_installed_packages, delegated, hg])
  · refine hguard _ ?_
    by_cases hg : ensureRunningFails d
    · simp [is_package_installed, hg]
    · cases hl : env.listPackagesOutcome <;> simp [is_package_installed, hg, hl]
  · exact hguard _ (by by_cases hg : ensureRunningFails d <;> simp [install_apk, delegated, hg])
  · refine hguard _ ?_
    by_cases hg : ensureRunningFails d
    · simp [uninstall_package, hg]
    · cases hl : env.listPackagesOutcome with
      | error k0 => simp [uninstall_package, hg, hl]
      | ok ps =>
          by_cases hp : pkg ∈ ps
          · cases hu : env.uninstallErr <;> simp [uninstall_package, hg, hl, hp, hu]
          · simp [uninstall_package, hg, hl, hp]

/-- C6 amended, witness: the invariant is preserved by `stop` on a
RUNNING handle with a client. -/
theorem client_of_running_invariant_witness :
    clientInv (stop envOk w0 dRun).device := by
  have h := client_of_running_invariant envOk envOk w0 dRun false "k" "a" "p" false
    (fun _ => rfl)
  exact h.2.2.2.1

/-! ### C7: delete from any state -/

/-- C7: from every starting state `delete` invokes the image tool's
delete; on success the state becomes NOT_CREATED, and on any collaborator
failure the state becomes ERROR and the exception surfaces as an
`AVDDeletionError` carrying the image name. -/
theorem delete_any_state (env : Env) (w : World) (d : AndroidDevice) :
    (delete env w d).calls = [Call.avdDelete d.name] ∧
    (env.avdDeleteErr = none →
       (delete env w d).device.state = AndroidDeviceState.NOT_CREATED ∧
       (delete env w d).result = Except.ok ()) ∧
    (∀ k, env.avdDeleteErr = some k →
       (delete env w d).device.state = AndroidDeviceState.ERROR ∧
       (delete env w d).result = Except.error (ExcKind.avdDeletionError d.name)) := by
  refine ⟨?_, ?_, ?_⟩
  · cases hd : env.avdDeleteErr <;> simp [delete, hd]
  · intro hd; constructor <;> simp [delete, hd]
  · intro k hd; constructor <;> simp [delete, hd]

/-- C7, witness: `delete` on a NOT_CREATED handle, success and failure. -/
theorem delete_any_state_witness :
    (delete envOk w0 (AndroidDevice.init "avd1")).device.state
      = AndroidDeviceState.NOT_CREATED ∧
    (delete { envOk with avdDeleteErr := some ExcKind.otherError } w0
        (AndroidDevice.init "avd1")).result
      = Except.error (ExcKind.avdDeletionError "avd1") := by
  refine ⟨((delete_any_state envOk w0 (AndroidDevice.init "avd1")).2.1 rfl).1, ?_⟩
  exact ((delete_any_state { envOk with avdDeleteErr := some ExcKind.otherError }
    w0 (AndroidDevice.init "avd1")).2.2 ExcKind.otherError rfl).2

/-! ### C8: best-effort scoped teardown -/

theorem stop_preserves_name (env : Env) (w : World) (d : AndroidDevice) :
    (stop env w d).device.name = d.name := by
  cases hcl : d.adb_client <;> cases hk : env.killEmulatorErr <;>
    cases hs : env.stopEmulatorErr <;> simp [stop, hcl, hk, hs]

/-- C8: `__exit__` runs the `stop` step and then the `delete` step — the
calls it makes are exactly those of `stop` followed by those of `delete`
run on the post-stop handle, so the image tool's delete is attempted for
every combination of stop/delete outcomes — and it never raises
(its result is `ok` for every environment, each step's exception being
caught and logged). -/
theorem scope_exit_best_effort (envS envD : Env) (w : World) (d : AndroidDevice) :
    (scopeExit envS envD w d).result = Except.ok () ∧
    (scopeExit envS envD w d).calls =
      (stop envS w d).calls ++
        (delete envD (stop envS w d).world (stop envS w d).device).calls ∧
    Call.avdDelete d.name ∈ (scopeExit envS envD w d).calls := by
  refine ⟨rfl, rfl, ?_⟩
  have hn := stop_preserves_name envS w d
  cases hd : envD.avdDeleteErr <;> simp [scopeExit, delete, hd, hn]

/-- C9: the four-operation happy path. -/
def lifecycleRun (e1 e2 e3 e4 : Env) (w : World) (d : AndroidDevice) :
    Outcome Unit × Outcome Unit × Outcome Unit × Outcome Unit :=
  let o1 := create e1 w d false
  let o2 := start e2 o1.world o1.device
  let o3 := stop e3 o2.world o2.device
  let o4 := delete e4 o3.world o3.device
  (o1, o2, o3, o4)

/-- C9: starting from a fresh NOT_CREATED handle, the sequence
`create(); start(); stop(); delete()` with every collaborator call
succeeding raises no exception at any step and ends with the handle in
state NOT_CREATED. -/
theorem full_lifecycle (e1 e2 e3 e4 : Env) (w : World) (nm : String)
    (h1 : e1.allOk) (h2 : e2.allOk) (h3 : e3.allOk) (h4 : e4.allOk) :
    (lifecycleRun e1 e2 e3 e4 w (AndroidDevice.init nm)).1.result = Except.ok () ∧
    (lifecycleRun e1 e2 e3 e4 w (AndroidDevice.init nm)).2.1.result = Except.ok () ∧
    (lifecycleRun e1 e2 e3 e4 w (AndroidDevice.init nm)).2.2.1.result = Except.ok () ∧
    (lifecycleRun e1 e2 e3 e4 w (AndroidDevice.init nm)).2.2.2.result = Except.ok () ∧
    (lifecycleRun e1 e2 e3 e4 w (AndroidDevice.init nm)).2.2.2.device.state
      = AndroidDeviceState.NOT_CREATED := by
  obtain ⟨he1, hac1, -, -, -, -, -, -, -, -, -, -, -, -, -⟩ := h1
  obtain ⟨-, -, -, ⟨p, hp⟩, hwb2, -, -, -, -, -, -, -, -, -, -⟩ := h2
  obtain ⟨-, -, -, -, -, hke3, hst3, -, -, -, -, -, -, -, -⟩ := h3
  obtain ⟨-, -, had4, -, -, -, -, -, -, -, -, -, -, -, -⟩ := h4
  have ho1dev : (create e1 w (AndroidDevice.init nm) false).device
      = { name := nm, state := AndroidDeviceState.CREATED, adb_client := none } := by
    by_cases hm : nm ∈ w.avds <;>
      simp [create, he1, hac1, hm, AndroidDevice.init]
  have ho1res : (create e1 w (AndroidDevice.init nm) false).result = Except.ok () := by
    by_cases hm : nm ∈ w.avds <;>
      simp [create, he1, hac1, hm, AndroidDevice.init]
  have ho2dev : (start e2 (create e1 w (AndroidDevice.init nm) false).world
        (create e1 w (AndroidDevice.init nm) false).device).device
      = { name := nm, state := AndroidDeviceState.RUNNING
          adb_client := some { port := p } } := by
    rw [ho1dev]; simp [start, hp, hwb2]
  have ho2res : (start e2 (create e1 w (AndroidDevice.init nm) false).world
        (create e1 w (AndroidDevice.init nm) false).device).result = Except.ok () := by
    simp [start, hp, hwb2]
  have ho3dev : (stop e3 (start e2 (create e1 w (AndroidDevice.init nm) false).world
          (create e1 w (AndroidDevice.init nm) false).device).world
        (start e2 (create e1 w (AndroidDevice.init nm) false).world
          (create e1 w (AndroidDevice.init nm) false).device).device).device
      = { name := nm, state := AndroidDeviceState.STOPPED, adb_client := none } := by
    rw [ho2dev]; simp [stop, hke3, hst3]
  have ho3res : (stop e3 (start e2 (create e1 w (AndroidDevice.init nm) false).world
          (create e1 w (AndroidDevice.init nm) false).device).world
        (start e2 (create e1 w (AndroidDevice.init nm) false).world
          (create e1 w (AndroidDevice.init nm) false).device).device).result
      = Except.ok () := by
    rw [ho2dev]; simp [stop, hke3, hst3]
  have ho4 : ∀ (w3 : World) (d3 : AndroidDevice),
      (delete e4 w3 d3).result = Except.ok () ∧
      (delete e4 w3 d3).device.state = AndroidDeviceState.NOT_CREATED := by
    intro w3 d3; constructor <;> simp [delete, had4]
  exact ⟨ho1res, ho2res, ho3res, (ho4 _ _).1, (ho4 _ _).2⟩

/-- C9, witness at a concrete input: the all-success environment, an
empty image store, a fresh handle named `avd1`. -/
theorem full_lifecycle_witness :
    (lifecycleRun envOk envOk envOk envOk { avds := [] }
        (AndroidDevice.init "avd1")).2.2.2.result = Except.ok () ∧
    (lifecycleRun envOk envOk envOk envOk { avds := [] }
        (AndroidDevice.init "avd1")).2.2.2.device.state
      = AndroidDeviceState.NOT_CREATED := by
  have h := full_lifecycle envOk envOk envOk envOk { avds := [] } "avd1"
    envOk_allOk envOk_allOk envOk_allOk envOk_allOk
  exact ⟨h.2.2.2.1, h.2.2.2.2⟩

/-! ### C10: uninstall guarded by an installed-package check -/

/-- C10: on a RUNNING handle with a client attached, `uninstall_package`
first queries the package list; when the package is absent it raises
`AndroidDeviceError` and never invokes the client's uninstall command;
when the package is present the calls are exactly the list query followed
by the uninstall command for that package. -/
theorem uninstall_requires_installed (env : Env) (w : World) (d : AndroidDevice)
    (pkg : String) (kd : Bool) (ps : List String)
    (hs : d.state = AndroidDeviceState.RUNNING)
    (hc : d.adb_client.isSome = true)
    (hl : env.listPackagesOutcome = Except.ok ps) :
    (uninstall_package env w d pkg kd).calls.head? = some Call.adbListPackages ∧
    (pkg ∉ ps →
       (uninstall_package env w d pkg kd).result
         = Except.error ExcKind.androidDeviceError ∧
       ∀ q k2, Call.adbUninstallPackage q k2 ∉ (uninstall_package env w d pkg kd).calls) ∧
    (pkg ∈ ps →
       (uninstall_package env w d pkg kd).calls
         = [Call.adbListPackages, Call.adbUninstallPackage pkg kd]) := by
  have hg : ensureRunningFails d = false := by
    cases hcl : d.adb_client with
    | none => rw [hcl] at hc; simp at hc
    | some c => simp [ensureRunningFails, hs, hcl]
  refine ⟨?_, ?_, ?_⟩
  · by_cases hp : pkg ∈ ps
    · cases hu : env.uninstallErr <;> simp [uninstall_package, hg, hl, hp, hu]
    · simp [uninstall_package, hg, hl, hp]
  · intro hp
    refine ⟨?_, ?_⟩
    · simp [uninstall_package, hg, hl, hp]
    · intro q k2; simp [uninstall_package, hg, hl, hp]
  · intro hp
    cases hu : env.uninstallErr <;> simp [uninstall_package, hg, hl, hp, hu]

/-- C10, witness: uninstalling an absent package on a RUNNING handle. -/
theorem uninstall_requires_installed_witness :
    (uninstall_package envOk w0 dRun "absent.pkg" false).result
      = Except.error ExcKind.androidDeviceError ∧
    ∀ q k2, Call.adbUninstallPackage q k2 ∉
      (uninstall_package envOk w0 dRun "absent.pkg" false).calls := by
  have h := uninstall_requires_installed envOk w0 dRun "absent.pkg" false
    ["com.example.app"] rfl rfl rfl
  exact h.2.1 (by decide)

end AndroidDeviceManager
